import Mathlib

/-!
# Verification of the MiFIR RTS 22 mapping-and-generation core

A shallow embedding of the repository's mapping-and-generation core:

* `custom_fields.py` — the Custom Field Registry (`CustomFieldManager`);
* `mifir_fields.py` — the standard field catalog (only the field names are
  needed here, for `validate_field_name`);
* `mifir_xml_generator.py` — the Report Assembler (`MiFIRXMLGenerator`);
* `custom_only_xml_generator.py` — the Custom-Only Assembler;
* `auto_mapper.py` — the Mapping Resolver (`AutoMapper`).

Python strings are modelled as Lean `String`s, with the ASCII semantics of
`str.upper`/`str.lower`/`str.isalnum`/`str.isalpha`/`str.strip` spelled out
explicitly below.  Wall-clock time (`datetime.now()`), Python's `hash`, the
external `pd.to_datetime` parser and Python's `float`/`int` parsers are
impurities/external collaborators of the code; they enter the embedding as an
explicit environment (`GenEnv`).  XML documents (built in the source through
`xml.etree.ElementTree` mutation) are modelled as a pure tree (`Xml`); the
final pretty-printing to a string is presentation and is not modelled.
-/

namespace MifirSpec

/-! ## Python string primitives (ASCII model) -/

/-- Python `str.isalnum` on a single character (ASCII model):
letters `A`-`Z`, `a`-`z` and digits `0`-`9`. -/
def pyIsAlnumChar (c : Char) : Bool :=
  decide (48 ≤ c.toNat ∧ c.toNat ≤ 57) ||
  decide (65 ≤ c.toNat ∧ c.toNat ≤ 90) ||
  decide (97 ≤ c.toNat ∧ c.toNat ≤ 122)

/-- Python `str.isalpha` on a single character (ASCII model). -/
def pyIsAlphaChar (c : Char) : Bool :=
  decide (65 ≤ c.toNat ∧ c.toNat ≤ 90) ||
  decide (97 ≤ c.toNat ∧ c.toNat ≤ 122)

/-- Python `str.upper` on a single character (ASCII model). -/
def pyUpperChar (c : Char) : Char :=
  if 97 ≤ c.toNat ∧ c.toNat ≤ 122 then Char.ofNat (c.toNat - 32) else c

/-- Python `str.lower` on a single character (ASCII model). -/
def pyLowerChar (c : Char) : Char :=
  if 65 ≤ c.toNat ∧ c.toNat ≤ 90 then Char.ofNat (c.toNat + 32) else c

/-- Python whitespace (the characters stripped by `str.strip`, ASCII model):
space, tab, newline, carriage return, vertical tab, form feed. -/
def pyIsSpaceChar (c : Char) : Bool :=
  decide (c.toNat = 32) || decide (9 ≤ c.toNat ∧ c.toNat ≤ 13)

/-- Python `str.upper`. -/
def pyUpper (s : String) : String :=
  String.mk (s.data.map pyUpperChar)

/-- Python `str.lower`. -/
def pyLower (s : String) : String :=
  String.mk (s.data.map pyLowerChar)

/-- Python `str.strip` (no argument): drop leading and trailing whitespace. -/
def pyStrip (s : String) : String :=
  String.mk (((s.data.dropWhile pyIsSpaceChar).reverse.dropWhile pyIsSpaceChar).reverse)

/-- Python `str.isalnum`: non-empty and every character alphanumeric. -/
def pyIsAlnumStr (s : String) : Bool :=
  !s.data.isEmpty && s.data.all pyIsAlnumChar

/-- `listStartsWith needle hay`: does `hay` start with `needle`? -/
def listStartsWith : List Char → List Char → Bool
  | [], _ => true
  | _ :: _, [] => false
  | a :: as, b :: bs => a == b && listStartsWith as bs

/-- `listContainsSub needle hay`: does `needle` occur as a contiguous run of
`hay`?  (The Python `in` operator on strings.) -/
def listContainsSub (needle : List Char) : List Char → Bool
  | [] => needle.isEmpty
  | c :: cs => listStartsWith needle (c :: cs) || listContainsSub needle cs

/-- The Python expression `sub in s` for strings. -/
def strContains (s sub : String) : Bool :=
  listContainsSub sub.data s.data

/-- The Python expression `ch in s` for a single character. -/
def strContainsChar (s : String) (ch : Char) : Bool :=
  s.data.contains ch

/-! ## Decimal rendering and `datetime` formatting

The generator formats `datetime.now()` with a handful of `strftime` formats
and renders `hash(...) % 1000` with the `03d` format.  Decimal rendering is
spelled out so that the digit shape of the output is provable. -/

/-- The decimal digit character for `d % 10`. -/
def digitChar (d : Nat) : Char :=
  Char.ofNat (48 + d % 10)

/-- The decimal digits of `n`, most significant first. -/
def natDigits (n : Nat) : List Char :=
  if _h : n < 10 then [digitChar n]
  else natDigits (n / 10) ++ [digitChar (n % 10)]
decreasing_by exact Nat.div_lt_self (by omega) (by omega)

/-- Zero-padded decimal rendering to width `w` (more digits if `n` needs
them) — the behaviour of Python's `%0Nd`-style formats. -/
def padNat (w n : Nat) : List Char :=
  List.replicate (w - (natDigits n).length) '0' ++ natDigits n

/-- A timestamp, as handed to the code by `datetime.now()` (wall clock) or by
the external `pd.to_datetime` parser. -/
structure PyDateTime where
  year : Nat
  month : Nat
  day : Nat
  hour : Nat
  minute : Nat
  second : Nat
  micro : Nat
deriving DecidableEq, Repr

/-- `strftime('%Y%m%d%H%M%S')`. -/
def fmtCompact (t : PyDateTime) : String :=
  String.mk (padNat 4 t.year ++ padNat 2 t.month ++ padNat 2 t.day ++
    padNat 2 t.hour ++ padNat 2 t.minute ++ padNat 2 t.second)

/-- `strftime('%Y%m%d_%H%M%S')`. -/
def fmtCompactUnderscore (t : PyDateTime) : String :=
  String.mk (padNat 4 t.year ++ padNat 2 t.month ++ padNat 2 t.day ++ ['_'] ++
    padNat 2 t.hour ++ padNat 2 t.minute ++ padNat 2 t.second)

/-- `strftime('%Y-%m-%d')`. -/
def fmtDate (t : PyDateTime) : String :=
  String.mk (padNat 4 t.year ++ ['-'] ++ padNat 2 t.month ++ ['-'] ++ padNat 2 t.day)

/-- `strftime('%H:%M:%S')` piece shared by the ISO formats below. -/
def fmtTime (t : PyDateTime) : String :=
  String.mk (padNat 2 t.hour ++ [':'] ++ padNat 2 t.minute ++ [':'] ++ padNat 2 t.second)

/-- `strftime('%Y-%m-%dT%H:%M:%SZ')`. -/
def fmtIsoZ (t : PyDateTime) : String :=
  fmtDate t ++ "T" ++ fmtTime t ++ "Z"

/-- `strftime('%Y-%m-%dT%H:%M:%S.%fZ')`. -/
def fmtIsoMicroZ (t : PyDateTime) : String :=
  fmtDate t ++ "T" ++ fmtTime t ++ "." ++ String.mk (padNat 6 t.micro) ++ "Z"

/-! ## XML trees

`xml.etree.ElementTree` elements, as pure values: tag name, attributes,
text content and child elements (in document order). -/

/-- An XML element. -/
inductive Xml where
  | elem (name : String) (attrs : List (String × String)) (text : String)
      (children : List Xml)

/-- Tag name of an element. -/
def Xml.name : Xml → String
  | .elem n _ _ _ => n

/-- Attributes of an element. -/
def Xml.attrs : Xml → List (String × String)
  | .elem _ a _ _ => a

/-- Text content of an element. -/
def Xml.text : Xml → String
  | .elem _ _ t _ => t

/-- Child elements, in document order. -/
def Xml.children : Xml → List Xml
  | .elem _ _ _ cs => cs

/-- The first child with the given tag name (`Element.find` on a plain tag). -/
def Xml.childNamed (x : Xml) (n : String) : Option Xml :=
  x.children.find? (fun c => c.name == n)

/-- The tag names of the children, in document order. -/
def Xml.childNames (x : Xml) : List String :=
  x.children.map Xml.name

@[simp] theorem Xml.name_elem (n : String) (a : List (String × String)) (t : String)
    (cs : List Xml) : (Xml.elem n a t cs).name = n := rfl

@[simp] theorem Xml.attrs_elem (n : String) (a : List (String × String)) (t : String)
    (cs : List Xml) : (Xml.elem n a t cs).attrs = a := rfl

@[simp] theorem Xml.text_elem (n : String) (a : List (String × String)) (t : String)
    (cs : List Xml) : (Xml.elem n a t cs).text = t := rfl

@[simp] theorem Xml.children_elem (n : String) (a : List (String × String)) (t : String)
    (cs : List Xml) : (Xml.elem n a t cs).children = cs := rfl


/-! ## Dictionaries and rows

Python `dict`s keep one entry per key; they are modelled as association
lists looked up by first match.  A dataset row (a `pandas` `Series`) is an
ordered association of column name to cell, where a missing cell (`NaN`)
is `none`. -/

/-- `Dict := Map<string, string>` — field mappings and constants tables. -/
abbrev Dict := List (String × String)

/-- A row of the input dataset. -/
abbrev Row := List (String × Option String)

/-- Python `d[k]`-with-membership-test: the value at `k`, if present. -/
def dictFind (d : Dict) (k : String) : Option String :=
  (List.find? (fun p => p.1 == k) d).map (fun p => p.2)

/-- Python `d.get(k, default)`. -/
def dictGet (d : Dict) (k : String) (default : String) : String :=
  (dictFind d k).getD default

/-- Python `d[k] = v`: replace the value at `k` if present, else append. -/
def dictSet (d : Dict) (k v : String) : Dict :=
  if (dictFind d k).isSome then
    List.map (fun p => if p.1 == k then (k, v) else p) d
  else d ++ [(k, v)]

/-- `MiFIRXMLGenerator._get_csv_value` (and the identical helper of the
Custom-Only Assembler): exact column-name match first, then a match after
stripping the stored column name; `NaN` cells and absent columns give `""`;
cell values are `str(...)`-ified and stripped. -/
def getCsvValue (row : Row) (col : String) : String :=
  match List.find? (fun p => p.1 == col) row with
  | some p => match p.2 with
    | some v => pyStrip v
    | none => ""
  | none =>
    match List.find? (fun p => pyStrip p.1 == col) row with
    | some p => match p.2 with
      | some v => pyStrip v
      | none => ""
    | none => ""

/-! ## `custom_fields.py` — the Custom Field Registry -/

/-- `CustomFieldCategory`. -/
inductive CustomFieldCategory where
  | required
  | conditional
  | optional
  | constant
deriving DecidableEq, Repr

/-- The `.value` string of a `CustomFieldCategory` member. -/
def CustomFieldCategory.value : CustomFieldCategory → String
  | .required => "required"
  | .conditional => "conditional"
  | .optional => "optional"
  | .constant => "constant"

/-- `CustomFieldCategory(s)`: the member whose value is `s`, or a
`ValueError` (`none`). -/
def categoryOfString (s : String) : Option CustomFieldCategory :=
  if s == "required" then some .required
  else if s == "conditional" then some .conditional
  else if s == "optional" then some .optional
  else if s == "constant" then some .constant
  else none

/-- `CustomFieldType`. -/
inductive CustomFieldType where
  | string
  | decimal
  | integer
  | datetime
  | boolean
  | enum
deriving DecidableEq, Repr

/-- The `.value` string of a `CustomFieldType` member. -/
def CustomFieldType.value : CustomFieldType → String
  | .string => "string"
  | .decimal => "decimal"
  | .integer => "integer"
  | .datetime => "datetime"
  | .boolean => "boolean"
  | .enum => "enum"

/-- `CustomFieldType(s)`: the member whose value is `s`, or a `ValueError`
(`none`). -/
def typeOfString (s : String) : Option CustomFieldType :=
  if s == "string" then some .string
  else if s == "decimal" then some .decimal
  else if s == "integer" then some .integer
  else if s == "datetime" then some .datetime
  else if s == "boolean" then some .boolean
  else if s == "enum" then some .enum
  else none

/-- The `CustomField` dataclass. -/
structure CustomField where
  name : String
  xml_element_name : String
  field_type : CustomFieldType
  category : CustomFieldCategory
  description : String
  default_value : String := ""
  enum_values : Option (List String) := none
  parent_element : String := "New"
  notes : String := ""
deriving DecidableEq, Repr

/-- `CustomField.is_required`. -/
def CustomField.is_required (f : CustomField) : Bool :=
  f.category == .required

/-- `CustomFieldManager`: the in-memory registry state (its list of custom
fields, in insertion order). -/
structure CustomFieldManager where
  customFields : List CustomField
deriving DecidableEq, Repr

/-- `CustomFieldManager.add_custom_field`: reject a duplicate name among the
existing custom fields, else append. -/
def addCustomField (mgr : CustomFieldManager) (f : CustomField) :
    CustomFieldManager × Bool :=
  if mgr.customFields.any (fun g => g.name == f.name) then (mgr, false)
  else (⟨mgr.customFields ++ [f]⟩, true)

/-- `CustomFieldManager.get_all_custom_fields` (returns a copy of the list). -/
def getAllCustomFields (mgr : CustomFieldManager) : List CustomField :=
  mgr.customFields

/-- `CustomFieldManager.get_custom_fields_by_category`. -/
def getCustomFieldsByCategory (mgr : CustomFieldManager)
    (cat : CustomFieldCategory) : List CustomField :=
  mgr.customFields.filter (fun f => f.category == cat)

/-- The names of the entries of `mifir_fields.MIFIR_FIELDS`, in catalog
order (the standard catalog, as far as `validate_field_name` needs it). -/
def MIFIR_FIELD_NAMES : List String :=
  ["reporting_party_lei", "report_action_type", "tech_record_id",
   "instrument_isin", "instrument_cfi", "execution_datetime",
   "trade_datetime", "settlement_date", "trading_venue", "trading_capacity",
   "price_amount", "price_currency", "quantity",
   "buyer_lei", "buyer_national_id", "buyer_first_name", "buyer_last_name",
   "buyer_birth_date", "buyer_country",
   "seller_lei", "seller_national_id", "seller_first_name",
   "seller_last_name", "seller_birth_date", "seller_country",
   "investment_decision_person", "investment_decision_algo",
   "execution_decision_person", "execution_decision_algo",
   "short_sale_indicator", "commodity_derivative_indicator",
   "clearing_indicator", "securities_financing_indicator",
   "country_of_branch", "investment_firm_covered", "transaction_id"]

/-- `name.replace('_', '').replace('-', '')`. -/
def stripIdentChars (s : String) : String :=
  String.mk (s.data.filter (fun c => !(c == '_') && !(c == '-')))

/-- `CustomFieldManager.validate_field_name`. -/
def validateFieldName (mgr : CustomFieldManager) (name : String) :
    Bool × String :=
  if name == "" then (false, "Field name cannot be empty")
  else if !pyIsAlnumStr (stripIdentChars name) then
    (false, "Field name can only contain letters, numbers, underscores, and hyphens")
  else if mgr.customFields.any (fun f => f.name == name) then
    (false, "Field name already exists")
  else if MIFIR_FIELD_NAMES.any (fun n => n == name) then
    (false, "Field name conflicts with standard MiFIR field")
  else (true, "Valid field name")

/-- Does `name[0].isalpha()` hold?  (`false` on the empty string, but the
caller tests emptiness first.) -/
def startsWithAlpha (name : String) : Bool :=
  match name.data with
  | [] => false
  | c :: _ => pyIsAlphaChar c

/-- `CustomFieldManager.validate_xml_element_name`. -/
def validateXmlElementName (name : String) : Bool × String :=
  if name == "" then (false, "XML element name cannot be empty")
  else if !startsWithAlpha name then
    (false, "XML element name must start with a letter")
  else if !pyIsAlnumStr (stripIdentChars name) then
    (false, "XML element name can only contain letters, numbers, underscores, and hyphens")
  else (true, "Valid XML element name")

/-! ### Export / import

`export_custom_fields` serializes the registry to a JSON array of records;
`import_custom_fields` parses such an array and replaces the registry
contents, leaving the registry untouched when any record fails to decode
(the whole loop runs inside one `try`/`except`).  The JSON text layer
(`json.dumps` / `json.loads`) is the standard library's and is not
re-modelled; the interchange payload is represented structurally as the
list of field records.  In a record, `none` stands for an absent key (or a
JSON `null`, which Python's `dict.get` treats the same way). -/

/-- One record of the interchange array. -/
structure FieldRecord where
  name : Option String := none
  xml_element_name : Option String := none
  field_type : Option String := none
  category : Option String := none
  description : Option String := none
  default_value : Option String := none
  enum_values : Option (List String) := none
  parent_element : Option String := none
  notes : Option String := none
deriving DecidableEq, Repr

/-- The record `export_custom_fields` writes for one field. -/
def encodeField (f : CustomField) : FieldRecord where
  name := some f.name
  xml_element_name := some f.xml_element_name
  field_type := some f.field_type.value
  category := some f.category.value
  description := some f.description
  default_value := some f.default_value
  enum_values := f.enum_values
  parent_element := some f.parent_element
  notes := some f.notes

/-- `CustomFieldManager.export_custom_fields` (as the structured payload). -/
def exportCustomFields (mgr : CustomFieldManager) : List FieldRecord :=
  mgr.customFields.map encodeField

/-- Decoding one record inside `import_custom_fields`: a `KeyError` on the
four mandatory keys or a `ValueError` from the two enum constructors is the
`none` case. -/
def decodeField (r : FieldRecord) : Option CustomField :=
  match r.name, r.xml_element_name, r.field_type, r.description with
  | some n, some x, some ft, some d =>
    match typeOfString ft, categoryOfString (r.category.getD "optional") with
    | some ty, some cat =>
      some { name := n, xml_element_name := x, field_type := ty,
             category := cat, description := d,
             default_value := r.default_value.getD "",
             enum_values := r.enum_values,
             parent_element := r.parent_element.getD "New",
             notes := r.notes.getD "" }
    | _, _ => none
  | _, _, _, _ => none

/-- The decode loop of `import_custom_fields`: first failure aborts. -/
def decodeFields : List FieldRecord → Option (List CustomField)
  | [] => some []
  | r :: rs =>
    match decodeField r with
    | none => none
    | some f =>
      match decodeFields rs with
      | none => none
      | some fs => some (f :: fs)

/-- `CustomFieldManager.import_custom_fields`: on success the custom set is
replaced wholesale; on any decode failure the registry is unchanged and a
failure result is returned. -/
def importCustomFields (mgr : CustomFieldManager) (data : List FieldRecord) :
    CustomFieldManager × Bool :=
  match decodeFields data with
  | some fs => (⟨fs⟩, true)
  | none => (mgr, false)

/-! ## `mifir_xml_generator.py` — the Report Assembler -/

/-- The impurities and external collaborators of the generator:
`datetime.now()`, Python's `hash` on a row's dict rendering, the
`pd.to_datetime` parser, and Python's `float(...)`/`int(...)` parse
successes (used only by custom-field value validation). -/
structure GenEnv where
  now : PyDateTime
  rowHash : Row → Nat
  parseDate : String → Option PyDateTime
  parseFloatOk : String → Bool
  parseIntOk : String → Bool

/-- `MiFIRXMLGenerator._has_mapping`: mapped, non-empty and not `"None"`. -/
def hasMapping (fieldName : String) (m : Dict) : Bool :=
  match dictFind m fieldName with
  | some v => !(v == "") && !(v == "None")
  | none => false

/-- `MiFIRXMLGenerator._get_mapped_value`. -/
def getMappedValue (fieldName : String) (row : Row) (m : Dict) (consts : Dict) :
    String :=
  match dictFind m fieldName with
  | none => ""
  | some mp =>
    if mp == "[Constant Value]" then dictGet consts fieldName ""
    else if !(mp == "") && !(mp == "None") then getCsvValue row mp
    else ""

/-- `MiFIRXMLGenerator._format_datetime`. -/
def formatDateTime (env : GenEnv) (ts : String) : String :=
  if ts == "" then fmtIsoMicroZ env.now
  else if strContainsChar ts 'T' && strContainsChar ts 'Z' then ts
  else if strContainsChar ts ':' && decide (ts.data.length < 15) then
    fmtDate env.now ++ "T" ++ ts ++ ":00.000Z"
  else ts

/-- `ds.split(' ')[0]`: the text before the first space. -/
def beforeFirstSpace (ds : String) : String :=
  String.mk (ds.data.takeWhile (fun c => !(c == ' ')))

/-- `MiFIRXMLGenerator._format_date`: parse through the external
`pd.to_datetime` and keep only the calendar date; on a parse error drop a
trailing time component manually. -/
def formatDate (env : GenEnv) (ds : String) : String :=
  if ds == "" then ""
  else match env.parseDate ds with
    | some dt => fmtDate dt
    | none => if strContainsChar ds ' ' then beforeFirstSpace ds else ds

/-- `MiFIRXMLGenerator._is_lei_format`: 20 alphanumeric characters, and not
empty or one of the placeholder sentinels. -/
def isLeiFormat (identifier : String) : Bool :=
  if identifier == "" || identifier == "BUYER_LEI_HERE" ||
      identifier == "SELLER_LEI_HERE" || identifier == "YOUR_FIRM_LEI_HERE" then
    false
  else decide (identifier.data.length = 20) && pyIsAlnumStr identifier

/-- The `FIRM_LEI` constant of `_add_buyer`/`_add_seller`. -/
def FIRM_LEI : String := "2138005EFA978Y43G944"

/-- `CustomFieldManager.validate_custom_field_values`. -/
def validateCustomFieldValues (env : GenEnv) (f : CustomField) (value : String) :
    Bool × String :=
  if value == "" && f.is_required then
    (false, "Required field '" ++ f.name ++ "' cannot be empty")
  else if value == "" then (true, "Valid (empty value for optional field)")
  else match f.field_type with
    | .decimal =>
      if env.parseFloatOk value then (true, "Valid decimal")
      else (false, "Must be a valid decimal number")
    | .integer =>
      if env.parseIntOk value then (true, "Valid integer")
      else (false, "Must be a valid integer")
    | .boolean =>
      if ["true", "false", "1", "0", "yes", "no", "y", "n"].any
          (fun t => t == pyLower value) then (true, "Valid boolean")
      else (false, "Must be true/false, 1/0, yes/no, or y/n")
    | .enum =>
      match f.enum_values with
      | some evs =>
        if !evs.isEmpty && !evs.any (fun e => e == value) then
          (false, "Must be one of: " ++ String.intercalate ", " evs)
        else (true, "Valid enum value")
      | none => (true, "Valid enum value")
    | .datetime =>
      if strContainsChar value 'T' &&
          (strContainsChar value 'Z' || strContainsChar value '+' ||
           strContainsChar (String.mk (value.data.drop (value.data.length - 6))) '-') then
        (true, "Valid datetime format")
      else (false, "Must be ISO 8601 format (e.g., 2025-08-19T08:22:23.294Z)")
    | .string => (true, "Valid string")

/-! ### Buyer and seller blocks -/

/-- The buyer-identifier resolution at the top of `_add_buyer`: direct
`buyer_lei` mapping, then taker/maker side inference, then the placeholder
sentinel. -/
def resolveBuyerId (row : Row) (m : Dict) (consts : Dict) : String :=
  let direct := getMappedValue "buyer_lei" row m consts
  let viaSide :=
    if direct == "" then
      let takerSide := pyLower (getMappedValue "taker_side_ordertype_sellorbuy" row m consts)
      if takerSide == "buy" then getMappedValue "fills_taker_user_id" row m consts
      else getMappedValue "fills_maker_user_id" row m consts
    else direct
  if viaSide == "" then "BUYER_LEI_HERE" else viaSide

/-- The seller-identifier resolution at the top of `_add_seller`. -/
def resolveSellerId (row : Row) (m : Dict) (consts : Dict) : String :=
  let direct := getMappedValue "seller_lei" row m consts
  let viaSide :=
    if direct == "" then
      let takerSide := pyLower (getMappedValue "taker_side_ordertype_sellorbuy" row m consts)
      if takerSide == "sell" then getMappedValue "fills_taker_user_id" row m consts
      else getMappedValue "fills_maker_user_id" row m consts
    else direct
  if viaSide == "" then "SELLER_LEI_HERE" else viaSide

/-- The natural-person sub-structure of `_add_buyer` (`Prsn` and its
children). -/
def buyerPrsn (env : GenEnv) (row : Row) (m : Dict) (consts : Dict) : Xml :=
  Xml.elem "Prsn" [] ""
    ((if hasMapping "buyer_first_name" m then
        [Xml.elem "FrstNm" [] (getMappedValue "buyer_first_name" row m consts) []]
      else []) ++
     [if hasMapping "buyer_last_name" m then
        Xml.elem "Nm" [] (getMappedValue "buyer_last_name" row m consts) []
      else Xml.elem "Nm" [] "Counterparty Buyer" []] ++
     (if hasMapping "buyer_birth_date" m then
        [Xml.elem "BirthDt" []
          (formatDate env (getMappedValue "buyer_birth_date" row m consts)) []]
      else []) ++
     [if hasMapping "buyer_national_id" m then
        Xml.elem "Othr" [] ""
          [Xml.elem "Id" [] (getMappedValue "buyer_national_id" row m consts) [],
           Xml.elem "SchmeNm" [] "" [Xml.elem "Cd" [] "NIDN" []]]
      else
        Xml.elem "Othr" [] ""
          [Xml.elem "Id" [] "UNKNOWN_ID" [],
           Xml.elem "SchmeNm" [] "" [Xml.elem "Cd" [] "NOID" []]]])

/-- The natural-person sub-structure of `_add_seller`. -/
def sellerPrsn (env : GenEnv) (row : Row) (m : Dict) (consts : Dict) : Xml :=
  Xml.elem "Prsn" [] ""
    ((if hasMapping "seller_first_name" m then
        [Xml.elem "FrstNm" [] (getMappedValue "seller_first_name" row m consts) []]
      else []) ++
     [if hasMapping "seller_last_name" m then
        Xml.elem "Nm" [] (getMappedValue "seller_last_name" row m consts) []
      else Xml.elem "Nm" [] "Counterparty Seller" []] ++
     (if hasMapping "seller_birth_date" m then
        [Xml.elem "BirthDt" []
          (formatDate env (getMappedValue "seller_birth_date" row m consts)) []]
      else []) ++
     [if hasMapping "seller_national_id" m then
        Xml.elem "Othr" [] ""
          [Xml.elem "Id" [] (getMappedValue "seller_national_id" row m consts) [],
           Xml.elem "SchmeNm" [] "" [Xml.elem "Cd" [] "NIDN" []]]
      else
        Xml.elem "Othr" [] ""
          [Xml.elem "Id" [] "UNKNOWN_ID" [],
           Xml.elem "SchmeNm" [] "" [Xml.elem "Cd" [] "NOID" []]]])

/-- `MiFIRXMLGenerator._add_decision_makers` (the list of sub-elements it
appends to the buyer or seller element). -/
def decisionMakers (row : Row) (m : Dict) (consts : Dict)
    (decisionType : String) : List Xml :=
  if decisionType == "investment" then
    if hasMapping "investment_decision_person" m then
      [Xml.elem "DcsnMakr" [] ""
        [Xml.elem "Prsn" [] ""
          [Xml.elem "Id" [] (getMappedValue "investment_decision_person" row m consts) []]]]
    else if hasMapping "investment_decision_algo" m then
      [Xml.elem "DcsnMakr" [] ""
        [Xml.elem "Algo" [] ""
          [Xml.elem "Id" [] (getMappedValue "investment_decision_algo" row m consts) []]]]
    else []
  else if decisionType == "execution" then
    if hasMapping "execution_decision_person" m then
      [Xml.elem "ExctnWthnFirm" [] ""
        [Xml.elem "Prsn" [] ""
          [Xml.elem "Id" [] (getMappedValue "execution_decision_person" row m consts) []]]]
    else if hasMapping "execution_decision_algo" m then
      [Xml.elem "ExctnWthnFirm" [] ""
        [Xml.elem "Algo" [] ""
          [Xml.elem "Id" [] (getMappedValue "execution_decision_algo" row m consts) []]]]
    else []
  else []

/-- `MiFIRXMLGenerator._add_buyer`: the `Buyr` element. -/
def addBuyer (env : GenEnv) (row : Row) (m : Dict) (consts : Dict) : Xml :=
  let buyerLei := resolveBuyerId row m consts
  Xml.elem "Buyr" [] ""
    ([Xml.elem "AcctOwnr" [] ""
       ([Xml.elem "Id" [] ""
          [if isLeiFormat buyerLei then Xml.elem "LEI" [] buyerLei []
           else buyerPrsn env row m consts]] ++
        (if !isLeiFormat buyerLei && hasMapping "buyer_country" m then
          [Xml.elem "CtryOfBrnch" [] (getMappedValue "buyer_country" row m consts) []]
         else []))] ++
     (if isLeiFormat buyerLei && buyerLei == FIRM_LEI then
        decisionMakers row m consts "investment"
      else []))

/-- `MiFIRXMLGenerator._add_seller`: the `Sellr` element. -/
def addSeller (env : GenEnv) (row : Row) (m : Dict) (consts : Dict) : Xml :=
  let sellerLei := resolveSellerId row m consts
  Xml.elem "Sellr" [] ""
    ([Xml.elem "AcctOwnr" [] ""
       ([Xml.elem "Id" [] ""
          [if isLeiFormat sellerLei then Xml.elem "LEI" [] sellerLei []
           else sellerPrsn env row m consts]] ++
        (if !isLeiFormat sellerLei && hasMapping "seller_country" m then
          [Xml.elem "CtryOfBrnch" [] (getMappedValue "seller_country" row m consts) []]
         else []))] ++
     (if isLeiFormat sellerLei && sellerLei == FIRM_LEI then
        decisionMakers row m consts "execution"
      else []))

/-! ### Financial instrument, transaction identifier, trading details -/

/-- The `Othr` branch of `_add_financial_instrument_correct`: the
generic/"other" instrument description. -/
def finInstrmOthr (row : Row) (m : Dict) (consts : Dict) : Xml :=
  Xml.elem "Othr" [] ""
    [Xml.elem "FinInstrmGnlAttrbts" [] ""
      [Xml.elem "FullNm" []
        (if hasMapping "instrument_full_name" m then
          getMappedValue "instrument_full_name" row m consts
         else if hasMapping "instrument_name" m then
          getMappedValue "instrument_name" row m consts
         else if hasMapping "instrument_symbol" m then
          getMappedValue "instrument_symbol" row m consts
         else "CRYPTO_DERIVATIVE") [],
       Xml.elem "ClssfctnTp" []
        (if hasMapping "instrument_classification" m then
          getMappedValue "instrument_classification" row m consts
         else if hasMapping "classification_type" m then
          getMappedValue "classification_type" row m consts
         else "SESTXC") [],
       Xml.elem "NtnlCcy" []
        (if hasMapping "instrument_notional_currency" m then
          getMappedValue "instrument_notional_currency" row m consts
         else if hasMapping "notional_currency" m then
          getMappedValue "notional_currency" row m consts
         else "USD") []],
     Xml.elem "DerivInstrmAttrbts" [] ""
      [Xml.elem "PricMltplr" []
        (if hasMapping "price_multiplier" m then
          getMappedValue "price_multiplier" row m consts
         else "1") [],
       Xml.elem "UndrlygInstrm" [] ""
        [Xml.elem "Othr" [] ""
          [Xml.elem "Sngl" [] ""
            [if hasMapping "instrument_isin" m then
              Xml.elem "ISIN" [] (getMappedValue "instrument_isin" row m consts) []
             else Xml.elem "Id" [] "UNKNOWN_INSTRUMENT" []]]],
       Xml.elem "DlvryTp" []
        (if hasMapping "delivery_type" m then
          getMappedValue "delivery_type" row m consts
         else "CASH") []]]

/-- `MiFIRXMLGenerator._add_financial_instrument_correct`: the `FinInstrm`
element — a bare `ISIN` child when `instrument_isin` is mapped to a
non-blank value, the `Othr` description otherwise. -/
def addFinInstrm (row : Row) (m : Dict) (consts : Dict) : Xml :=
  Xml.elem "FinInstrm" [] ""
    (if hasMapping "instrument_isin" m then
      let isinValue := getMappedValue "instrument_isin" row m consts
      if !(isinValue == "") && !(pyStrip isinValue == "") then
        [Xml.elem "ISIN" [] (pyStrip isinValue) []]
      else [finInstrmOthr row m consts]
     else [finInstrmOthr row m consts])

/-- The `TxId` text of `_add_mifir_transaction`: mapped values are upper-cased,
stripped of non-alphanumerics and truncated to 52 characters (with the fixed
`"AUTOTXN001"` fallback when nothing is left); unmapped rows get a synthetic
identifier from the wall clock and the row-content hash. -/
def txIdText (env : GenEnv) (row : Row) (m : Dict) (consts : Dict) : String :=
  if hasMapping "transaction_id" m then
    let raw := getMappedValue "transaction_id" row m consts
    let clean := String.mk (((pyUpper raw).data.filter pyIsAlnumChar).take 52)
    if clean == "" then "AUTOTXN001" else clean
  else
    let auto := "AUTOTXN" ++ fmtCompact env.now ++
      String.mk (padNat 3 (env.rowHash row % 1000))
    String.mk (auto.data.take 52)

/-- The `TradgCpcty` text: coerce legacy side words to `AOTC`, keep the three
schema codes, default `AOTC`. -/
def tradingCapacityText (row : Row) (m : Dict) (consts : Dict) : String :=
  if hasMapping "trading_capacity" m then
    let v := getMappedValue "trading_capacity" row m consts
    if ["buy", "sell", "prin", "principal"].any (fun t => t == pyLower v) then "AOTC"
    else if ["DEAL", "MTCH", "AOTC"].any (fun t => t == pyUpper v) then pyUpper v
    else "AOTC"
  else "AOTC"

/-- The `ShrtSellgInd` text: coerce common values into the `Side5Code`
enumeration, default `UNDI`. -/
def shortSaleText (row : Row) (m : Dict) (consts : Dict) : String :=
  if hasMapping "short_sale_indicator" m then
    let v := getMappedValue "short_sale_indicator" row m consts
    if ["NSHO", "LONG", "BUY"].any (fun t => t == pyUpper v) then "UNDI"
    else if ["short", "sell"].any (fun t => t == pyLower v) then "SELL"
    else if ["SESH", "SELL", "SSEX", "UNDI"].any (fun t => t == pyUpper v) then pyUpper v
    else "UNDI"
  else "UNDI"

/-- The inner `Tx` trading-details block (trade date, capacity, quantity,
price, venue). -/
def tradeDetails (env : GenEnv) (row : Row) (m : Dict) (consts : Dict) : Xml :=
  Xml.elem "Tx" [] ""
    [Xml.elem "TradDt" []
      (if hasMapping "trade_datetime" m then
        formatDateTime env (getMappedValue "trade_datetime" row m consts)
       else fmtIsoMicroZ env.now) [],
     Xml.elem "TradgCpcty" [] (tradingCapacityText row m consts) [],
     Xml.elem "Qty" [] ""
      [Xml.elem "Unit" []
        (if hasMapping "quantity" m then getMappedValue "quantity" row m consts
         else "1.0") []],
     Xml.elem "Pric" [] ""
      [Xml.elem "Pric" [] ""
        [Xml.elem "MntryVal" [] ""
          [Xml.elem "Amt"
            [("Ccy",
              if hasMapping "price_currency" m then
                getMappedValue "price_currency" row m consts
              else "USD")]
            (if hasMapping "price_amount" m then
              getMappedValue "price_amount" row m consts
             else "100.00") [],
           Xml.elem "Sgn" [] "true" []]]],
     Xml.elem "TradVn" []
      (if hasMapping "trading_venue" m then
        getMappedValue "trading_venue" row m consts
       else "XOFF") []]

/-- One step of the custom-field loop of
`MiFIRXMLGenerator._add_custom_fields`: the element the loop appends to the
transaction record for one custom field, if any.  (The configured parent
element is ignored: `_find_or_create_parent_element` always returns the
row-level container.) -/
def emitCustomField (env : GenEnv) (row : Row) (m : Dict) (consts : Dict)
    (f : CustomField) : Option Xml :=
  if hasMapping f.name m then
    if (validateCustomFieldValues env f (getMappedValue f.name row m consts)).1
        && !(getMappedValue f.name row m consts == "") then
      some (Xml.elem f.xml_element_name []
        (getMappedValue f.name row m consts) [])
    else if f.is_required && (getMappedValue f.name row m consts == "") then
      if !(f.default_value == "") then
        some (Xml.elem f.xml_element_name [] f.default_value [])
      else none
    else none
  else none

/-- `MiFIRXMLGenerator._add_custom_fields`: the loop over
`get_all_custom_fields()`, appending the emitted elements in registry
order. -/
def addCustomFieldsElems (env : GenEnv) (row : Row) (m : Dict) (consts : Dict) :
    List CustomField → List Xml
  | [] => []
  | f :: fs =>
    match emitCustomField env row m consts f with
    | some x => x :: addCustomFieldsElems env row m consts fs
    | none => addCustomFieldsElems env row m consts fs

/-- `MiFIRXMLGenerator._add_mifir_transaction`: one `Tx` element, holding a
`New` record whose children follow the fixed ESMAUG 1.1.0 order, with any
custom-field elements appended at the end. -/
def addMifirTransaction (env : GenEnv) (row : Row) (m : Dict) (consts : Dict)
    (cfm : Option CustomFieldManager) : Xml :=
  Xml.elem "Tx" [] ""
    [Xml.elem "New" [] ""
      ([Xml.elem "TxId" [] (txIdText env row m consts) [],
        Xml.elem "ExctgPty" []
          (if hasMapping "executing_party" m then
            getMappedValue "executing_party" row m consts
           else
            let r := getMappedValue "reporting_party_lei" row m consts
            if r == "" then "YOUR_FIRM_LEI_HERE" else r) [],
        Xml.elem "InvstmtPtyInd" []
          (if hasMapping "investment_party_ind" m then
            getMappedValue "investment_party_ind" row m consts
           else "true") [],
        Xml.elem "SubmitgPty" []
          (if hasMapping "reporting_party_lei" m then
            getMappedValue "reporting_party_lei" row m consts
           else dictGet consts "reporting_party_lei" "YOUR_FIRM_LEI_HERE") [],
        addBuyer env row m consts,
        addSeller env row m consts,
        Xml.elem "OrdrTrnsmssn" [] ""
          [Xml.elem "TrnsmssnInd" []
            (if hasMapping "transmission_indicator" m then
              getMappedValue "transmission_indicator" row m consts
             else "false") []],
        tradeDetails env row m consts,
        addFinInstrm row m consts,
        Xml.elem "ExctgPrsn" [] ""
          [Xml.elem "Clnt" []
            (if hasMapping "executing_person" m then
              getMappedValue "executing_person" row m consts
             else "NORE") []],
        Xml.elem "AddtlAttrbts" [] ""
          [Xml.elem "ShrtSellgInd" [] (shortSaleText row m consts) [],
           Xml.elem "SctiesFincgTxInd" []
            (if hasMapping "securities_financing_indicator" m then
              getMappedValue "securities_financing_indicator" row m consts
             else "false") []]] ++
       (match cfm with
        | some mgr => addCustomFieldsElems env row m consts (getAllCustomFields mgr)
        | none => []))]

/-- `MiFIRXMLGenerator._add_header`: the ISO 20022 `Hdr` section. -/
def addHeader (env : GenEnv) (consts : Dict) : Xml :=
  Xml.elem "Hdr" [] ""
    [Xml.elem "AppHdr"
      [("xmlns", "urn:iso:std:iso:20022:tech:xsd:head.001.001.01"),
       ("xmlns:xsi", "http://www.w3.org/2001/XMLSchema-instance"),
       ("xsi:schemaLocation",
        "urn:iso:std:iso:20022:tech:xsd:head.001.001.01 head.001.001.01_ESMAUG_1.0.0.xsd")] ""
      [Xml.elem "Fr" [] ""
        [Xml.elem "OrgId" [] ""
          [Xml.elem "Id" [] ""
            [Xml.elem "OrgId" [] ""
              [Xml.elem "Othr" [] ""
                [Xml.elem "Id" [] (dictGet consts "from_org_id" "KD") []]]]]],
       Xml.elem "To" [] ""
        [Xml.elem "OrgId" [] ""
          [Xml.elem "Id" [] ""
            [Xml.elem "OrgId" [] ""
              [Xml.elem "Othr" [] ""
                [Xml.elem "Id" [] (dictGet consts "to_org_id" "CY") []]]]]],
       Xml.elem "BizMsgIdr" []
        (match dictFind consts "biz_msg_id" with
         | some v => if v == "" then "KD_DATTRA_generated_" ++ fmtCompactUnderscore env.now else v
         | none => "KD_DATTRA_generated_" ++ fmtCompactUnderscore env.now) [],
       Xml.elem "MsgDefIdr" [] "auth.016.001.01" [],
       Xml.elem "CreDt" [] (dictGet consts "creation_date" (fmtIsoZ env.now)) []]]

/-- `MiFIRXMLGenerator.generate_xml`, up to serialization: the `BizData`
document tree, holding the header and one transaction record per input row
(in row order). -/
def generateXml (env : GenEnv) (rows : List Row) (m : Dict) (consts : Dict)
    (cfm : Option CustomFieldManager) : Xml :=
  Xml.elem "BizData"
    [("xmlns", "urn:iso:std:iso:20022:tech:xsd:head.003.001.01"),
     ("xmlns:xsi", "http://www.w3.org/2001/XMLSchema-instance"),
     ("xsi:schemaLocation",
      "urn:iso:std:iso:20022:tech:xsd:head.003.001.01 head.003.001.01.xsd")] ""
    [addHeader env consts,
     Xml.elem "Pyld" [] ""
      [Xml.elem "Document"
        [("xmlns", "urn:iso:std:iso:20022:tech:xsd:auth.016.001.01"),
         ("xmlns:xsi", "http://www.w3.org/2001/XMLSchema-instance"),
         ("xsi:schemaLocation",
          "urn:iso:std:iso:20022:tech:xsd:auth.016.001.01 auth.016.001.01_ESMAUG_Reporting_1.1.0.xsd")] ""
        [Xml.elem "FinInstrmRptgTxRpt" [] ""
          (rows.map (fun r => addMifirTransaction env r m consts cfm))]]]

/-- The transaction records of a generated document: the children of
`Pyld/Document/FinInstrmRptgTxRpt`. -/
def txElements (doc : Xml) : List Xml :=
  match (doc.childNamed "Pyld").bind (fun p => p.childNamed "Document")
      |>.bind (fun d => d.childNamed "FinInstrmRptgTxRpt") with
  | some rpt => rpt.children
  | none => []

/-! ## `custom_only_xml_generator.py` — the Custom-Only Assembler -/

/-- The value resolution inside
`CustomOnlyXMLGenerator._add_single_custom_field`: mapped constant (with the
field's default as the constants-table fallback), mapped column, or the
field's default value. -/
def resolveCustomValue (f : CustomField) (row : Row) (m : Dict)
    (consts : Dict) : String :=
  match dictFind m f.name with
  | some mp =>
    if mp == "[Constant Value]" then dictGet consts f.name f.default_value
    else if !(mp == "") && !(mp == "None") then getCsvValue row mp
    else f.default_value
  | none => f.default_value

/-- `CustomOnlyXMLGenerator._add_single_custom_field`: the element appended
for one custom field (`none` when nothing is appended).  An element is
created whenever a value resolved *or the field is required*; its text falls
back to the default value, and the category is recorded in a diagnostic
attribute. -/
def addSingleCustomField (f : CustomField) (row : Row) (m : Dict)
    (consts : Dict) : Option Xml :=
  let value := resolveCustomValue f row m consts
  if !(value == "") || f.is_required then
    some (Xml.elem f.xml_element_name [("data-category", f.category.value)]
      (if !(value == "") then value else f.default_value) [])
  else none

/-- `CustomOnlyXMLGenerator._add_custom_transaction`: one `Tx`/`New` record
holding only custom fields, grouped required → conditional → optional →
constant. -/
def addCustomTransaction (row : Row) (m : Dict) (consts : Dict)
    (mgr : CustomFieldManager) : Xml :=
  Xml.elem "Tx" [] ""
    [Xml.elem "New" [] ""
      ((getCustomFieldsByCategory mgr .required ++
        getCustomFieldsByCategory mgr .conditional ++
        getCustomFieldsByCategory mgr .optional ++
        getCustomFieldsByCategory mgr .constant).filterMap
        (fun f => addSingleCustomField f row m consts))]

/-! ## `auto_mapper.py` — the Mapping Resolver (the relational pass) -/

/-- The input dataset as the `AutoMapper` constructor receives it. -/
structure Dataset where
  cols : List String
  rows : List Row

/-- `self.columns`: the column names, stripped. -/
def amColumns (df : Dataset) : List String :=
  df.cols.map pyStrip

/-- First-occurrence deduplication (`pandas` `unique()`). -/
def dedupFirst : List String → List String
  | [] => []
  | v :: vs => v :: (dedupFirst (vs.filter (fun w => !(w == v))))
termination_by l => l.length
decreasing_by
  have h := List.length_filter_le (fun w => !(w == v)) vs
  simp only [List.length_cons]
  omega

/-- `AutoMapper._get_column_samples` for one column: up to 5 distinct
non-null, non-blank values, each stripped. -/
def columnSample (df : Dataset) (col : String) : List String :=
  let values := df.rows.filterMap (fun r =>
    match List.find? (fun p => p.1 == col) r with
    | some p => p.2
    | none => none)
  let nonBlank := values.filter (fun v => !(pyStrip v == ""))
  ((dedupFirst nonBlank).take 5).map pyStrip

/-- `self.column_samples`: samples keyed by the raw column names. -/
def amSamples (df : Dataset) : List (String × List String) :=
  df.cols.map (fun c => (c, columnSample df c))

/-- `samples.get(col, [])`. -/
def samplesGet (samples : List (String × List String)) (col : String) :
    List String :=
  ((List.find? (fun p => p.1 == col) samples).map (fun p => p.2)).getD []

/-- `AutoMapper._find_column_containing`: the first column containing any of
the patterns, scanning pattern-major, case-insensitively. -/
def findColumnContaining (columns : List String) (patterns : List String) :
    Option String :=
  match patterns with
  | [] => none
  | p :: ps =>
    match columns.find? (fun col => strContains (pyLower col) (pyLower p)) with
    | some col => some col
    | none => findColumnContaining columns ps

/-- The first step of `AutoMapper._apply_logical_relationships`: copy an
execution-timestamp suggestion into the trade timestamp when the latter is
unset. -/
def copyTradeDatetime (suggestions : Dict) : Dict :=
  match dictFind suggestions "execution_datetime" with
  | some ts =>
    if !(ts == "") && (dictFind suggestions "trade_datetime").isNone then
      dictSet suggestions "trade_datetime" ts
    else suggestions
  | none => suggestions

/-- `AutoMapper._apply_logical_relationships`: the timestamp-copy step, then
the buyer/seller overwrite from taker/maker columns and the buy/sell side
column, when all three resolve. -/
def applyLogicalRelationships (suggestions : Dict) (columns : List String)
    (samples : List (String × List String)) : Dict :=
  match findColumnContaining columns ["taker_user", "taker_id"],
      findColumnContaining columns ["maker_user", "maker_id"],
      findColumnContaining columns ["ordertype", "side", "buy_sell"] with
  | some takerCol, some makerCol, some sideCol =>
    if (samplesGet samples sideCol).any
        (fun s => strContains (pyLower s) "buy") then
      dictSet (dictSet (copyTradeDatetime suggestions) "buyer_lei" takerCol)
        "seller_lei" makerCol
    else
      dictSet (dictSet (copyTradeDatetime suggestions) "buyer_lei" makerCol)
        "seller_lei" takerCol
  | _, _, _ => copyTradeDatetime suggestions

/-! ## Supporting lemmas -/

/-- `Char.ofNat` round-trips through `toNat` on the basic plane. -/
theorem toNat_charOfNat (m : Nat) (h : m < 55296) : (Char.ofNat m).toNat = m := by
  simp [Char.ofNat, Nat.isValidChar, Char.ofNatAux, Char.toNat, UInt32.toNat]
  rw [dif_pos (Or.inl h)]
  simp [BitVec.toNat_ofNatLt]

/-- Characters of a transaction identifier: uppercase letters and digits. -/
def isTxIdChar (c : Char) : Bool :=
  decide (65 ≤ c.toNat ∧ c.toNat ≤ 90) || decide (48 ≤ c.toNat ∧ c.toNat ≤ 57)

/-- The schema pattern `[A-Z0-9]{1,52}` of `TxId`. -/
def matchesTxIdPattern (s : String) : Bool :=
  !s.data.isEmpty && decide (s.data.length ≤ 52) && s.data.all isTxIdChar

theorem toNat_digitChar (d : Nat) : (digitChar d).toNat = 48 + d % 10 := by
  have h : d % 10 < 10 := Nat.mod_lt _ (by omega)
  exact toNat_charOfNat _ (by omega)

theorem isTxIdChar_digitChar (d : Nat) : isTxIdChar (digitChar d) = true := by
  have h : d % 10 < 10 := Nat.mod_lt _ (by omega)
  simp [isTxIdChar, toNat_digitChar]
  omega

theorem mem_natDigits_isTxIdChar (n : Nat) :
    ∀ c ∈ natDigits n, isTxIdChar c = true := by
  induction n using Nat.strong_induction_on with
  | _ n ih =>
    intro c hc
    unfold natDigits at hc
    by_cases h : n < 10
    · simp [h] at hc
      exact hc ▸ isTxIdChar_digitChar n
    · simp [h, List.mem_append] at hc
      rcases hc with hc | hc
      · exact ih (n / 10) (Nat.div_lt_self (by omega) (by omega)) c hc
      · exact hc ▸ isTxIdChar_digitChar (n % 10)

theorem mem_padNat_isTxIdChar (w n : Nat) :
    ∀ c ∈ padNat w n, isTxIdChar c = true := by
  intro c hc
  rcases List.mem_append.1 hc with hc | hc
  · rcases List.eq_of_mem_replicate hc with rfl
    decide
  · exact mem_natDigits_isTxIdChar n c hc

/-- A character that survives `upper` followed by the `isalnum` filter is an
uppercase letter or a digit. -/
theorem isTxIdChar_of_pyUpperChar (c : Char)
    (h : pyIsAlnumChar (pyUpperChar c) = true) :
    isTxIdChar (pyUpperChar c) = true := by
  unfold pyUpperChar at h ⊢
  by_cases hc : 97 ≤ c.toNat ∧ c.toNat ≤ 122
  · rw [if_pos hc] at h ⊢
    have ht : (Char.ofNat (c.toNat - 32)).toNat = c.toNat - 32 :=
      toNat_charOfNat _ (by omega)
    simp [isTxIdChar, ht]
    omega
  · rw [if_neg hc] at h ⊢
    simp [pyIsAlnumChar] at h
    simp [isTxIdChar]
    omega

theorem pyStrip_empty : pyStrip "" = "" := rfl

theorem ne_empty_of_pyStrip_ne_empty {s : String} (h : ¬ pyStrip s = "") :
    ¬ s = "" := by
  intro hs
  exact h (hs ▸ pyStrip_empty)

theorem length_take_le' (l : List Char) (n : Nat) : (l.take n).length ≤ n := by
  simp [List.length_take]

theorem isEmpty_false_of_ne_nil {α : Type} {l : List α} (h : ¬ l = []) :
    l.isEmpty = false := by
  cases l with
  | nil => exact absurd rfl h
  | cons a as => rfl

/-- C4: for every input row, mapping and constants table — whether the
transaction identifier is mapped or auto-generated — the `TxId` element of
the transaction record emitted by the Report Assembler carries a value
matching `[A-Z0-9]{1,52}`: non-empty, at most 52 characters, all uppercase
alphanumerics. -/
theorem c4_txid_shape (env : GenEnv) (row : Row) (m : Dict) (consts : Dict)
    (cfm : Option CustomFieldManager) :
    ((addMifirTransaction env row m consts cfm).childNamed "New").bind
      (fun n => n.childNamed "TxId") =
      some (Xml.elem "TxId" [] (txIdText env row m consts) []) ∧
    matchesTxIdPattern (txIdText env row m consts) = true := by
  refine ⟨rfl, ?_⟩
  unfold txIdText
  by_cases hm : hasMapping "transaction_id" m = true
  · rw [if_pos hm]
    set raw := getMappedValue "transaction_id" row m consts with hraw
    set l := ((pyUpper raw).data.filter pyIsAlnumChar).take 52 with hl
    by_cases hcl : (String.mk l == "") = true
    · rw [if_pos hcl]
      decide
    · rw [if_neg hcl]
      have hne : ¬ l = [] := by
        intro h0
        rw [h0] at hcl
        exact hcl rfl
      unfold matchesTxIdPattern
      simp only [Bool.and_eq_true, decide_eq_true_eq]
      refine ⟨⟨?_, ?_⟩, ?_⟩
      · simp [isEmpty_false_of_ne_nil hne]
      · exact List.length_take_le 52 ((pyUpper raw).data.filter pyIsAlnumChar)
      · rw [List.all_eq_true]
        intro c hc
        have hcf : c ∈ (pyUpper raw).data.filter pyIsAlnumChar :=
          List.take_subset _ _ hc
        rcases List.mem_filter.1 hcf with ⟨hcm, hcal⟩
        rcases List.mem_map.1 (by simpa [pyUpper] using hcm) with ⟨c0, _, rfl⟩
        exact isTxIdChar_of_pyUpperChar c0 hcal
  · rw [if_neg hm]
    set full := ("AUTOTXN" ++ fmtCompact env.now ++
      String.mk (padNat 3 (env.rowHash row % 1000))).data with hfull
    have hdata : full = "AUTOTXN".data ++
        ((((((padNat 4 env.now.year ++ padNat 2 env.now.month) ++
          padNat 2 env.now.day) ++ padNat 2 env.now.hour) ++
          padNat 2 env.now.minute) ++ padNat 2 env.now.second) ++
          padNat 3 (env.rowHash row % 1000)) := by
      rw [hfull]
      simp [fmtCompact, List.append_assoc]
    have h7 : 7 ≤ full.length := by
      rw [hdata, List.length_append]
      have h7a : ("AUTOTXN".data).length = 7 := rfl
      omega
    have htne : ¬ full.take 52 = [] := by
      intro h0
      have hh := congrArg List.length h0
      rw [List.length_take] at hh
      simp only [List.length_nil] at hh
      omega
    unfold matchesTxIdPattern
    simp only [Bool.and_eq_true, decide_eq_true_eq]
    refine ⟨⟨?_, ?_⟩, ?_⟩
    · simp [isEmpty_false_of_ne_nil htne]
    · exact List.length_take_le 52 full
    · rw [List.all_eq_true]
      intro c hc
      have hcm : c ∈ full := List.take_subset _ _ hc
      rw [hdata] at hcm
      rcases List.mem_append.1 hcm with h | h
      · fin_cases h <;> decide
      · rcases List.mem_append.1 h with h | h
        · simp only [List.mem_append] at h
          rcases h with ((((h | h) | h) | h) | h) | h <;>
            exact mem_padNat_isTxIdChar _ _ c h
        · exact mem_padNat_isTxIdChar _ _ c h

/-- C1: for every input dataset, mapping, constants table and custom
registry, the document produced by `generate_xml` carries exactly one `Tx`
transaction record per input row under `Pyld/Document/FinInstrmRptgTxRpt`,
in input row order (the i-th record is built from the i-th row). -/
theorem c1_row_count_invariant (env : GenEnv) (rows : List Row) (m : Dict)
    (consts : Dict) (cfm : Option CustomFieldManager) :
    txElements (generateXml env rows m consts cfm) =
      rows.map (fun r => addMifirTransaction env r m consts cfm) ∧
    (txElements (generateXml env rows m consts cfm)).length = rows.length ∧
    ∀ t ∈ txElements (generateXml env rows m consts cfm), t.name = "Tx" := by
  have hmain : txElements (generateXml env rows m consts cfm) =
      rows.map (fun r => addMifirTransaction env r m consts cfm) := rfl
  refine ⟨hmain, ?_, ?_⟩
  · rw [hmain, List.length_map]
  · rw [hmain]
    intro t ht
    rcases List.mem_map.1 ht with ⟨r, _, rfl⟩
    rfl

/-- C3: for every row whose `instrument_isin` field is mapped and resolves
to a non-blank value, the `FinInstrm` block emitted by the Report Assembler
consists of a single bare `ISIN` reference — the generic `Othr` form is
absent. -/
theorem c3_isin_preference (row : Row) (m : Dict) (consts : Dict)
    (hmap : hasMapping "instrument_isin" m = true)
    (hval : ¬ pyStrip (getMappedValue "instrument_isin" row m consts) = "") :
    (addFinInstrm row m consts).children =
      [Xml.elem "ISIN" []
        (pyStrip (getMappedValue "instrument_isin" row m consts)) []] ∧
    (addFinInstrm row m consts).childNames = ["ISIN"] := by
  have hne : ¬ getMappedValue "instrument_isin" row m consts = "" :=
    ne_empty_of_pyStrip_ne_empty hval
  have hcond : (!(getMappedValue "instrument_isin" row m consts == "") &&
      !(pyStrip (getMappedValue "instrument_isin" row m consts) == "")) = true := by
    simp [hne, hval]
  have hchildren : (addFinInstrm row m consts).children =
      [Xml.elem "ISIN" []
        (pyStrip (getMappedValue "instrument_isin" row m consts)) []] := by
    unfold addFinInstrm
    rw [if_pos hmap]
    simp only [hcond, if_true, Xml.children_elem]
  refine ⟨hchildren, ?_⟩
  unfold Xml.childNames
  rw [hchildren]
  rfl

/-- Witness for C3 at a concrete mapped, non-blank ISIN. -/
theorem c3_isin_preference_witness :
    (addFinInstrm [("isin", some "US0231351067")] [("instrument_isin", "isin")]
      []).children =
      [Xml.elem "ISIN" []
        (pyStrip (getMappedValue "instrument_isin" [("isin", some "US0231351067")]
          [("instrument_isin", "isin")] [])) []] ∧
    (addFinInstrm [("isin", some "US0231351067")] [("instrument_isin", "isin")]
      []).childNames = ["ISIN"] :=
  c3_isin_preference [("isin", some "US0231351067")] [("instrument_isin", "isin")]
    [] (by decide) (by decide)

/-- The `AcctOwnr/Id` element of an emitted buyer block. -/
def buyerIdElem (env : GenEnv) (row : Row) (m : Dict) (consts : Dict) :
    Option Xml :=
  ((addBuyer env row m consts).childNamed "AcctOwnr").bind
    (fun a => a.childNamed "Id")

/-- The `AcctOwnr/Id` element of an emitted seller block. -/
def sellerIdElem (env : GenEnv) (row : Row) (m : Dict) (consts : Dict) :
    Option Xml :=
  ((addSeller env row m consts).childNamed "AcctOwnr").bind
    (fun a => a.childNamed "Id")

/-- The identifier shape named by the spec's LEI-shape branch: length 20,
alphanumerics only, and not a known placeholder sentinel (stated from the
spec's words, for comparison with the code's `_is_lei_format`). -/
def specLeiShaped (s : String) : Bool :=
  decide (s.data.length = 20) && s.data.all pyIsAlnumChar &&
  !(["BUYER_LEI_HERE", "SELLER_LEI_HERE", "YOUR_FIRM_LEI_HERE"].any
      (fun p => p == s))

/-- On non-empty identifiers the spec's shape condition and the code's
`_is_lei_format` agree. -/
theorem specLeiShaped_eq_isLeiFormat (s : String) (h : ¬ s = "") :
    specLeiShaped s = isLeiFormat s := by
  by_cases h1 : s = "BUYER_LEI_HERE"
  · subst h1 ; decide
  by_cases h2 : s = "SELLER_LEI_HERE"
  · subst h2 ; decide
  by_cases h3 : s = "YOUR_FIRM_LEI_HERE"
  · subst h3 ; decide
  unfold specLeiShaped isLeiFormat
  have e0 : (s == "") = false := beq_eq_false_iff_ne.2 h
  have e1 : (s == "BUYER_LEI_HERE") = false := beq_eq_false_iff_ne.2 h1
  have e2 : (s == "SELLER_LEI_HERE") = false := beq_eq_false_iff_ne.2 h2
  have e3 : (s == "YOUR_FIRM_LEI_HERE") = false := beq_eq_false_iff_ne.2 h3
  have f1 : ("BUYER_LEI_HERE" == s) = false :=
    beq_eq_false_iff_ne.2 (fun hh => h1 hh.symm)
  have f2 : ("SELLER_LEI_HERE" == s) = false :=
    beq_eq_false_iff_ne.2 (fun hh => h2 hh.symm)
  have f3 : ("YOUR_FIRM_LEI_HERE" == s) = false :=
    beq_eq_false_iff_ne.2 (fun hh => h3 hh.symm)
  rw [if_neg (by simp [e0, e1, e2, e3])]
  by_cases hlen : s.data.length = 20
  · have hdne : ¬ s.data = [] := by
      intro hd
      apply h
      cases s
      simp at hd
      rw [hd]
    simp [pyIsAlnumStr, f1, f2, f3, isEmpty_false_of_ne_nil hdne]
  · have hd : decide (s.length = 20) = false := decide_eq_false hlen
    simp [hd, f1, f2, f3]

/-- The final fallback of the buyer/seller identifier resolution never
leaves the identifier empty. -/
theorem ite_default_ne_empty (x d : String) (hd : ¬ d = "") :
    ¬ (if (x == "") = true then d else x) = "" := by
  split
  · exact hd
  · next hx => simpa using hx

theorem resolveBuyerId_ne_empty (row : Row) (m : Dict) (consts : Dict) :
    ¬ resolveBuyerId row m consts = "" := by
  unfold resolveBuyerId
  exact ite_default_ne_empty _ _ (by decide)

theorem resolveSellerId_ne_empty (row : Row) (m : Dict) (consts : Dict) :
    ¬ resolveSellerId row m consts = "" := by
  unfold resolveSellerId
  exact ite_default_ne_empty _ _ (by decide)

theorem buyerIdElem_lei (env : GenEnv) (row : Row) (m : Dict) (consts : Dict)
    (hlei : isLeiFormat (resolveBuyerId row m consts) = true) :
    buyerIdElem env row m consts =
      some (Xml.elem "Id" [] ""
        [Xml.elem "LEI" [] (resolveBuyerId row m consts) []]) := by
  simp [buyerIdElem, addBuyer, Xml.childNamed, hlei]

theorem buyerIdElem_prsn (env : GenEnv) (row : Row) (m : Dict) (consts : Dict)
    (hlei : isLeiFormat (resolveBuyerId row m consts) = false) :
    buyerIdElem env row m consts =
      some (Xml.elem "Id" [] "" [buyerPrsn env row m consts]) := by
  simp [buyerIdElem, addBuyer, Xml.childNamed, hlei]

theorem sellerIdElem_lei (env : GenEnv) (row : Row) (m : Dict) (consts : Dict)
    (hlei : isLeiFormat (resolveSellerId row m consts) = true) :
    sellerIdElem env row m consts =
      some (Xml.elem "Id" [] ""
        [Xml.elem "LEI" [] (resolveSellerId row m consts) []]) := by
  simp [sellerIdElem, addSeller, Xml.childNamed, hlei]

theorem sellerIdElem_prsn (env : GenEnv) (row : Row) (m : Dict) (consts : Dict)
    (hlei : isLeiFormat (resolveSellerId row m consts) = false) :
    sellerIdElem env row m consts =
      some (Xml.elem "Id" [] "" [sellerPrsn env row m consts]) := by
  simp [sellerIdElem, addSeller, Xml.childNamed, hlei]

theorem buyerPrsn_names (env : GenEnv) (row : Row) (m : Dict) (consts : Dict) :
    "Nm" ∈ (buyerPrsn env row m consts).childNames ∧
    "Othr" ∈ (buyerPrsn env row m consts).childNames := by
  unfold buyerPrsn Xml.childNames
  constructor <;> simp <;> split <;> simp <;> split <;> simp

theorem sellerPrsn_names (env : GenEnv) (row : Row) (m : Dict) (consts : Dict) :
    "Nm" ∈ (sellerPrsn env row m consts).childNames ∧
    "Othr" ∈ (sellerPrsn env row m consts).childNames := by
  unfold sellerPrsn Xml.childNames
  constructor <;> simp <;> split <;> simp <;> split <;> simp

/-- C2: for every resolved buyer or seller identifier: when the identifier
is 20 alphanumeric characters and not a known placeholder sentinel, the
emitted `AcctOwnr/Id` sub-structure holds exactly a bare `LEI` element (no
person sub-fields); for every other identifier — and the resolved identifier
is never empty — it holds exactly a `Prsn` sub-structure with person
sub-fields (`Nm`, `Othr`) and no `LEI` element. -/
theorem c2_lei_shape_branch (env : GenEnv) (row : Row) (m : Dict) (consts : Dict) :
    ¬ resolveBuyerId row m consts = "" ∧
    ¬ resolveSellerId row m consts = "" ∧
    (buyerIdElem env row m consts).map Xml.childNames =
      some (if specLeiShaped (resolveBuyerId row m consts) = true
        then ["LEI"] else ["Prsn"]) ∧
    (specLeiShaped (resolveBuyerId row m consts) = true →
      buyerIdElem env row m consts =
        some (Xml.elem "Id" [] ""
          [Xml.elem "LEI" [] (resolveBuyerId row m consts) []])) ∧
    (specLeiShaped (resolveBuyerId row m consts) = false →
      buyerIdElem env row m consts =
        some (Xml.elem "Id" [] "" [buyerPrsn env row m consts]) ∧
      "Nm" ∈ (buyerPrsn env row m consts).childNames ∧
      "Othr" ∈ (buyerPrsn env row m consts).childNames ∧
      (buyerPrsn env row m consts).name = "Prsn") ∧
    (sellerIdElem env row m consts).map Xml.childNames =
      some (if specLeiShaped (resolveSellerId row m consts) = true
        then ["LEI"] else ["Prsn"]) ∧
    (specLeiShaped (resolveSellerId row m consts) = true →
      sellerIdElem env row m consts =
        some (Xml.elem "Id" [] ""
          [Xml.elem "LEI" [] (resolveSellerId row m consts) []])) ∧
    (specLeiShaped (resolveSellerId row m consts) = false →
      sellerIdElem env row m consts =
        some (Xml.elem "Id" [] "" [sellerPrsn env row m consts]) ∧
      "Nm" ∈ (sellerPrsn env row m consts).childNames ∧
      "Othr" ∈ (sellerPrsn env row m consts).childNames ∧
      (sellerPrsn env row m consts).name = "Prsn") := by
  have hb := resolveBuyerId_ne_empty row m consts
  have hs := resolveSellerId_ne_empty row m consts
  have hbe := specLeiShaped_eq_isLeiFormat _ hb
  have hse := specLeiShaped_eq_isLeiFormat _ hs
  refine ⟨hb, hs, ?_, ?_, ?_, ?_, ?_, ?_⟩
  · rw [hbe]
    cases hlei : isLeiFormat (resolveBuyerId row m consts)
    · rw [buyerIdElem_prsn env row m consts hlei]
      simp [buyerPrsn, Xml.childNames]
    · rw [buyerIdElem_lei env row m consts hlei]
      simp [Xml.childNames]
  · intro hsp
    exact buyerIdElem_lei env row m consts (hbe ▸ hsp)
  · intro hsp
    refine ⟨buyerIdElem_prsn env row m consts (hbe ▸ hsp), ?_, ?_, rfl⟩
    · exact (buyerPrsn_names env row m consts).1
    · exact (buyerPrsn_names env row m consts).2
  · rw [hse]
    cases hlei : isLeiFormat (resolveSellerId row m consts)
    · rw [sellerIdElem_prsn env row m consts hlei]
      simp [sellerPrsn, Xml.childNames]
    · rw [sellerIdElem_lei env row m consts hlei]
      simp [Xml.childNames]
  · intro hsp
    exact sellerIdElem_lei env row m consts (hse ▸ hsp)
  · intro hsp
    refine ⟨sellerIdElem_prsn env row m consts (hse ▸ hsp), ?_, ?_, rfl⟩
    · exact (sellerPrsn_names env row m consts).1
    · exact (sellerPrsn_names env row m consts).2

/-- A syntactically valid custom field whose name collides with the
standard catalog (`reporting_party_lei` is a standard MiFIR field). -/
def stdCollisionField : CustomField :=
  { name := "reporting_party_lei", xml_element_name := "RptLei",
    field_type := .string, category := .optional, description := "" }

/-- C5 counterexample: the claim says the registry's add operation fails
when the field's name is present in the standard catalog (or fails
identifier validation), but `add_custom_field` succeeds and appends such a
field — only `validate_field_name` (a separate operation) rejects it.  An
empty-name field is accepted by add as well. -/
theorem c5_counterexample :
    (addCustomField ⟨[]⟩ stdCollisionField).2 = true ∧
    (addCustomField ⟨[]⟩ stdCollisionField).1.customFields = [stdCollisionField] ∧
    "reporting_party_lei" ∈ MIFIR_FIELD_NAMES ∧
    (validateFieldName ⟨[]⟩ "reporting_party_lei").1 = false ∧
    (addCustomField ⟨[]⟩
      { name := "", xml_element_name := "X", field_type := .string,
        category := .optional, description := "" }).2 = true ∧
    (validateFieldName ⟨[]⟩ "").1 = false := by
  refine ⟨rfl, rfl, ?_, rfl, rfl, rfl⟩
  decide

/-- C5 (amended): the registry's add operation returns failure exactly when
the field's name is already present among the custom fields (leaving state
unchanged), and otherwise appends and succeeds; presence in the standard
catalog and identifier validity are checked only by the separate
`validate_field_name` / `validate_xml_element_name` operations, whose
success conditions are characterized here. -/
theorem c5_add_and_validation (mgr : CustomFieldManager) (f : CustomField)
    (n : String) :
    ((addCustomField mgr f).2 = true ↔
      ∀ g ∈ mgr.customFields, ¬ g.name = f.name) ∧
    ((addCustomField mgr f).2 = true →
      (addCustomField mgr f).1.customFields = mgr.customFields ++ [f]) ∧
    ((addCustomField mgr f).2 = false → (addCustomField mgr f).1 = mgr) ∧
    ((validateFieldName mgr n).1 = true ↔
      (¬ n = "" ∧ pyIsAlnumStr (stripIdentChars n) = true ∧
       (∀ g ∈ mgr.customFields, ¬ g.name = n) ∧ ¬ n ∈ MIFIR_FIELD_NAMES)) ∧
    ((validateXmlElementName n).1 = true ↔
      ((∃ c cs, n.data = c :: cs ∧ pyIsAlphaChar c = true) ∧
       pyIsAlnumStr (stripIdentChars n) = true)) := by
  refine ⟨?_, ?_, ?_, ?_, ?_⟩
  · unfold addCustomField
    by_cases h : mgr.customFields.any (fun g => g.name == f.name) = true
    · rw [if_pos h]
      refine iff_of_false (by simp) ?_
      intro hall
      simp only [List.any_eq_true, beq_iff_eq] at h
      rcases h with ⟨g, hg, hname⟩
      exact hall g hg hname
    · rw [if_neg h]
      refine iff_of_true rfl ?_
      intro g hg hname
      exact h (List.any_eq_true.2 ⟨g, hg, beq_iff_eq.2 hname⟩)
  · unfold addCustomField
    by_cases h : mgr.customFields.any (fun g => g.name == f.name) = true
    · rw [if_pos h] ; intro hfalse ; cases hfalse
    · rw [if_neg h] ; intro _ ; rfl
  · unfold addCustomField
    by_cases h : mgr.customFields.any (fun g => g.name == f.name) = true
    · rw [if_pos h] ; intro _ ; rfl
    · rw [if_neg h] ; intro htrue ; cases htrue
  · unfold validateFieldName
    by_cases h0 : (n == "") = true
    · rw [if_pos h0]
      simp only [beq_iff_eq] at h0
      exact iff_of_false (by simp) (fun hc => hc.1 h0)
    · rw [if_neg h0]
      simp only [beq_iff_eq] at h0
      by_cases h1 : pyIsAlnumStr (stripIdentChars n) = true
      · rw [if_neg (by simp [h1])]
        by_cases h2 : mgr.customFields.any (fun f => f.name == n) = true
        · rw [if_pos h2]
          refine iff_of_false (by simp) ?_
          intro hc
          simp only [List.any_eq_true, beq_iff_eq] at h2
          rcases h2 with ⟨g, hg, hname⟩
          exact hc.2.2.1 g hg hname
        · rw [if_neg h2]
          by_cases h3 : MIFIR_FIELD_NAMES.any (fun p => p == n) = true
          · rw [if_pos h3]
            refine iff_of_false (by simp) ?_
            intro hc
            simp only [List.any_eq_true, beq_iff_eq] at h3
            rcases h3 with ⟨p, hp, rfl⟩
            exact hc.2.2.2 hp
          · rw [if_neg h3]
            refine iff_of_true rfl ?_
            refine ⟨h0, h1, ?_, ?_⟩
            · intro g hg hname
              exact h2 (List.any_eq_true.2 ⟨g, hg, beq_iff_eq.2 hname⟩)
            · intro hmem
              exact h3 (List.any_eq_true.2 ⟨n, hmem, beq_iff_eq.2 rfl⟩)
      · rw [if_pos (by simp [Bool.not_eq_true] at h1 ; simp [h1])]
        exact iff_of_false (by simp) (fun hc => h1 hc.2.1)
  · unfold validateXmlElementName
    by_cases h0 : (n == "") = true
    · rw [if_pos h0]
      simp only [beq_iff_eq] at h0
      refine iff_of_false (by simp) ?_
      intro hc
      rcases hc.1 with ⟨c, cs, hcs, _⟩
      rw [h0] at hcs
      cases hcs
    · rw [if_neg h0]
      by_cases hα : startsWithAlpha n = true
      · rw [if_neg (by simp [hα])]
        by_cases h1 : pyIsAlnumStr (stripIdentChars n) = true
        · rw [if_neg (by simp [h1])]
          refine iff_of_true rfl ⟨?_, h1⟩
          unfold startsWithAlpha at hα
          cases hd : n.data with
          | nil => rw [hd] at hα ; cases hα
          | cons c cs =>
            rw [hd] at hα
            exact ⟨c, cs, rfl, hα⟩
        · rw [if_pos (by simp [Bool.not_eq_true] at h1 ; simp [h1])]
          exact iff_of_false (by simp) (fun hc => h1 hc.2)
      · rw [if_pos (by simp [Bool.not_eq_true] at hα ; simp [hα])]
        refine iff_of_false (by simp) ?_
        intro hc
        rcases hc.1 with ⟨c, cs, hcs, hc2⟩
        apply hα
        unfold startsWithAlpha
        rw [hcs]
        exact hc2

theorem decodeFields_eq_none_iff (data : List FieldRecord) :
    decodeFields data = none ↔ ∃ r ∈ data, decodeField r = none := by
  induction data with
  | nil => simp [decodeFields]
  | cons r rs ih =>
    unfold decodeFields
    cases hr : decodeField r with
    | none =>
      refine iff_of_true rfl ⟨r, List.mem_cons_self r rs, hr⟩
    | some f =>
      cases hrs : decodeFields rs with
      | none =>
        refine iff_of_true rfl ?_
        rcases ih.1 hrs with ⟨r2, hr2, hd2⟩
        exact ⟨r2, List.mem_cons_of_mem r hr2, hd2⟩
      | some fs =>
        refine iff_of_false (by simp) ?_
        intro h
        rcases h with ⟨r2, hr2, hd2⟩
        rcases List.mem_cons.1 hr2 with rfl | hr2
        · rw [hr] at hd2 ; cases hd2
        · rw [ih.2 ⟨r2, hr2, hd2⟩] at hrs ; cases hrs

/-- C6: for every import payload, the registry's import operation fails (a
failure result, not an exception) exactly when some field record fails to
decode, and in that case the registry is left exactly as it was (no partial
import); when every record decodes, the custom set is wholesale-replaced by
the decoded fields and the operation succeeds. -/
theorem c6_import_atomic (mgr : CustomFieldManager) (data : List FieldRecord) :
    ((importCustomFields mgr data).2 = false ↔
      ∃ r ∈ data, decodeField r = none) ∧
    ((importCustomFields mgr data).2 = false →
      importCustomFields mgr data = (mgr, false)) ∧
    (∀ fs, decodeFields data = some fs →
      importCustomFields mgr data = (⟨fs⟩, true)) := by
  cases hd : decodeFields data with
  | none =>
    have he : importCustomFields mgr data = (mgr, false) := by
      unfold importCustomFields
      rw [hd]
    rw [he]
    refine ⟨iff_of_true rfl ((decodeFields_eq_none_iff data).1 hd),
      fun _ => rfl, ?_⟩
    intro fs hfs
    exact Option.noConfusion hfs
  | some fs =>
    have he : importCustomFields mgr data = (⟨fs⟩, true) := by
      unfold importCustomFields
      rw [hd]
    rw [he]
    refine ⟨iff_of_false (by simp) ?_, ?_, ?_⟩
    · intro hex
      rw [(decodeFields_eq_none_iff data).2 hex] at hd
      cases hd
    · intro h
      cases h
    · intro fs2 hfs2
      have hinj : fs = fs2 := by injection hfs2
      rw [hinj]

/-- A payload whose single record lacks the mandatory `name` key. -/
def badRecord : FieldRecord := {}

/-- Witness for C6 at a concrete failing payload and a concrete registry. -/
theorem c6_import_atomic_witness :
    ((importCustomFields ⟨[stdCollisionField]⟩ [badRecord]).2 = false ↔
      ∃ r ∈ [badRecord], decodeField r = none) ∧
    ((importCustomFields ⟨[stdCollisionField]⟩ [badRecord]).2 = false →
      importCustomFields ⟨[stdCollisionField]⟩ [badRecord] =
        (⟨[stdCollisionField]⟩, false)) ∧
    (∀ fs, decodeFields [badRecord] = some fs →
      importCustomFields ⟨[stdCollisionField]⟩ [badRecord] = (⟨fs⟩, true)) :=
  c6_import_atomic ⟨[stdCollisionField]⟩ [badRecord]

theorem typeOfString_value (t : CustomFieldType) :
    typeOfString t.value = some t := by
  cases t <;> rfl

theorem categoryOfString_value (c : CustomFieldCategory) :
    categoryOfString c.value = some c := by
  cases c <;> rfl

theorem decodeField_encodeField (f : CustomField) :
    decodeField (encodeField f) = some f := by
  unfold decodeField encodeField
  simp only [Option.getD_some]
  rw [typeOfString_value, categoryOfString_value]

theorem decodeFields_map_encodeField (l : List CustomField) :
    decodeFields (l.map encodeField) = some l := by
  induction l with
  | nil => rfl
  | cons f fs ih =>
    rw [List.map_cons]
    unfold decodeFields
    rw [decodeField_encodeField, ih]

/-- C7: re-importing the export of a Custom Field Registry succeeds and
reproduces the registry's field set exactly (names, types, categories,
defaults, enum values, order — everything). -/
theorem c7_export_import_roundtrip (mgr : CustomFieldManager) :
    importCustomFields mgr (exportCustomFields mgr) = (mgr, true) := by
  unfold importCustomFields exportCustomFields
  rw [decodeFields_map_encodeField]

/-- A required custom field with no default value, as in the spec's custom
field round-trip scenario (`client_ref` → tag `ClntRef`). -/
def clientRefField : CustomField :=
  { name := "client_ref", xml_element_name := "ClntRef",
    field_type := .string, category := .required, description := "" }

/-- C8 counterexample: the claim says a required custom field whose mapping
resolves to no value and whose definition has no default produces *no
element* in the Custom-Only Assembler's record; in fact
`_add_single_custom_field` emits the element anyway (`value or
is_required`), with empty text.  Here `client_ref` is mapped to a column
absent from the row. -/
theorem c8_counterexample :
    ¬ addSingleCustomField clientRefField [] [("client_ref", "colA")] [] = none ∧
    addSingleCustomField clientRefField [] [("client_ref", "colA")] [] =
      some (Xml.elem "ClntRef" [("data-category", "required")] "" []) ∧
    clientRefField.is_required = true ∧
    clientRefField.default_value = "" ∧
    resolveCustomValue clientRefField [] [("client_ref", "colA")] [] = "" := by
  refine ⟨?_, rfl, rfl, rfl, rfl⟩
  intro h
  cases h

/-- C8 (amended): in the Custom-Only Assembler, a custom field with no
resolvable value is omitted exactly when it is *not* required; a *required*
field with no resolvable value is emitted anyway, its text falling back to
the default value (hence an empty element when there is no default), with
its category recorded in the diagnostic attribute. -/
theorem c8_required_empty_emitted (f : CustomField) (row : Row) (m : Dict)
    (consts : Dict) :
    (addSingleCustomField f row m consts = none ↔
      (resolveCustomValue f row m consts = "" ∧ f.is_required = false)) ∧
    (resolveCustomValue f row m consts = "" → f.is_required = true →
      addSingleCustomField f row m consts =
        some (Xml.elem f.xml_element_name [("data-category", f.category.value)]
          f.default_value [])) := by
  unfold addSingleCustomField
  by_cases hv : (resolveCustomValue f row m consts == "") = true
  · simp only [beq_iff_eq] at hv
    rw [hv]
    by_cases hr : f.is_required = true
    · rw [if_pos (by simp [hr])]
      constructor
      · refine iff_of_false ?_ ?_
        · intro h ; cases h
        · intro hc ; rw [hr] at hc ; cases hc.2
      · intro _ _ ; rfl
    · rw [if_neg (by simp [Bool.not_eq_true] at hr ; simp [hr])]
      constructor
      · refine iff_of_true rfl ⟨rfl, by simp [Bool.not_eq_true] at hr ; exact hr⟩
      · intro _ hcontra
        exact absurd hcontra hr
  · simp only [beq_iff_eq] at hv
    rw [if_pos (by simp [hv])]
    constructor
    · refine iff_of_false ?_ ?_
      · intro h ; cases h
      · intro hc ; exact hv hc.1
    · intro hc
      exact absurd hc hv

/-- A fixed environment for concrete evaluations (wall clock frozen, row
hash constant, external parsers trivial). -/
def env0 : GenEnv :=
  { now := ⟨2025, 8, 19, 22, 23, 0, 0⟩, rowHash := fun _ => 0,
    parseDate := fun _ => none, parseFloatOk := fun _ => true,
    parseIntOk := fun _ => true }

/-- An optional custom field registered *before* a required one. -/
def optFirstField : CustomField :=
  { name := "opt_a", xml_element_name := "OptA", field_type := .string,
    category := .optional, description := "" }

/-- A required custom field registered *after* an optional one. -/
def reqSecondField : CustomField :=
  { name := "req_b", xml_element_name := "ReqB", field_type := .string,
    category := .required, description := "" }

/-- A registry whose insertion order is optional-then-required. -/
def c9Mgr : CustomFieldManager := ⟨[optFirstField, reqSecondField]⟩

/-- Constant-value mappings for both fields of `c9Mgr`. -/
def c9Map : Dict := [("opt_a", "[Constant Value]"), ("req_b", "[Constant Value]")]

/-- Constants supplying non-empty values for both fields of `c9Mgr`. -/
def c9Consts : Dict := [("opt_a", "v1"), ("req_b", "v2")]

/-- The category-grouped emission order the spec sentence describes
(required → conditional → optional → constant), stated from the spec's
words for comparison with the code's insertion-order loop. -/
def groupedCustomFieldsElems (env : GenEnv) (row : Row) (m : Dict)
    (consts : Dict) (mgr : CustomFieldManager) : List Xml :=
  addCustomFieldsElems env row m consts
    (getCustomFieldsByCategory mgr .required ++
     getCustomFieldsByCategory mgr .conditional ++
     getCustomFieldsByCategory mgr .optional ++
     getCustomFieldsByCategory mgr .constant)

/-- C9 counterexample: the Report Assembler appends custom-field elements in
registry insertion order, not grouped required → conditional → optional →
constant.  With an optional field registered before a required one (both
mapped to non-empty constants) the emitted order is `OptA`, `ReqB`, while
the claimed grouped order would be `ReqB`, `OptA`. -/
theorem c9_counterexample :
    (addCustomFieldsElems env0 [] c9Map c9Consts
      (getAllCustomFields c9Mgr)).map Xml.name = ["OptA", "ReqB"] ∧
    (groupedCustomFieldsElems env0 [] c9Map c9Consts c9Mgr).map Xml.name =
      ["ReqB", "OptA"] ∧
    optFirstField.category = .optional ∧
    reqSecondField.category = .required ∧
    ¬ (addCustomFieldsElems env0 [] c9Map c9Consts
        (getAllCustomFields c9Mgr)).map Xml.name =
      (groupedCustomFieldsElems env0 [] c9Map c9Consts c9Mgr).map Xml.name := by
  refine ⟨rfl, rfl, rfl, rfl, ?_⟩
  intro h
  rw [show (addCustomFieldsElems env0 [] c9Map c9Consts
      (getAllCustomFields c9Mgr)).map Xml.name = ["OptA", "ReqB"] from rfl,
    show (groupedCustomFieldsElems env0 [] c9Map c9Consts c9Mgr).map Xml.name =
      ["ReqB", "OptA"] from rfl] at h
  exact absurd h (by decide)

theorem emitCustomField_children (env : GenEnv) (row : Row) (m : Dict)
    (consts : Dict) (f : CustomField) (x : Xml)
    (h : emitCustomField env row m consts f = some x) : x.children = [] := by
  unfold emitCustomField at h
  split at h
  · split at h
    · cases h ; rfl
    · split at h
      · split at h
        · cases h ; rfl
        · cases h
      · cases h
  · cases h

theorem addCustomFieldsElems_eq_filterMap (env : GenEnv) (row : Row)
    (m : Dict) (consts : Dict) (l : List CustomField) :
    addCustomFieldsElems env row m consts l =
      l.filterMap (emitCustomField env row m consts) := by
  induction l with
  | nil => rfl
  | cons f fs ih =>
    unfold addCustomFieldsElems
    rw [List.filterMap_cons]
    cases he : emitCustomField env row m consts f with
    | none => rw [ih]
    | some x => rw [ih]

/-- C9 (amended): the Report Assembler appends the user-defined custom
fields as flat (childless) elements at the end of the transaction record,
in registry insertion order — one optional element per registered field as
the per-field emission decides — rather than grouped by category. -/
theorem c9_insertion_order (env : GenEnv) (row : Row) (m : Dict)
    (consts : Dict) (mgr : CustomFieldManager) :
    addCustomFieldsElems env row m consts (getAllCustomFields mgr) =
      mgr.customFields.filterMap (emitCustomField env row m consts) ∧
    (∀ x ∈ addCustomFieldsElems env row m consts (getAllCustomFields mgr),
      x.children = []) ∧
    ((addMifirTransaction env row m consts (some mgr)).childNamed "New").map
        (fun n => n.children.drop 11) =
      some (addCustomFieldsElems env row m consts (getAllCustomFields mgr)) := by
  refine ⟨addCustomFieldsElems_eq_filterMap env row m consts _, ?_, rfl⟩
  intro x hx
  rw [addCustomFieldsElems_eq_filterMap] at hx
  rcases List.mem_filterMap.1 hx with ⟨f, _, he⟩
  exact emitCustomField_children env row m consts f x he

theorem find?_append {α : Type} (p : α → Bool) (l1 l2 : List α) :
    List.find? p (l1 ++ l2) =
      (List.find? p l1).orElse (fun _ => List.find? p l2) := by
  induction l1 with
  | nil => simp
  | cons a as ih =>
    by_cases h : p a = true <;> simp [List.find?_cons, h, ih]

theorem dictFind_cons_pos (a : String × String) (as : Dict) (k : String)
    (h : (a.1 == k) = true) : dictFind (a :: as) k = some a.2 := by
  unfold dictFind
  rw [@List.find?_cons_of_pos _ (fun p => p.1 == k) a as h]
  rfl

theorem dictFind_cons_neg (a : String × String) (as : Dict) (k : String)
    (h : ¬ (a.1 == k) = true) : dictFind (a :: as) k = dictFind as k := by
  unfold dictFind
  rw [@List.find?_cons_of_neg _ (fun p => p.1 == k) a as h]

theorem dictFind_mapSet_self (d : Dict) (k v : String) :
    dictFind (d.map (fun p => if p.1 == k then (k, v) else p)) k =
      if (dictFind d k).isSome then some v else none := by
  induction d with
  | nil => rfl
  | cons a as ih =>
    rw [List.map_cons]
    by_cases h : (a.1 == k) = true
    · rw [if_pos h, dictFind_cons_pos _ _ _ (by simp),
        dictFind_cons_pos a as k h]
      rfl
    · rw [if_neg h, dictFind_cons_neg _ _ _ h, dictFind_cons_neg a as k h, ih]

theorem dictFind_mapSet_ne (d : Dict) (k v k' : String) (hne : ¬ k' = k) :
    dictFind (d.map (fun p => if p.1 == k then (k, v) else p)) k' =
      dictFind d k' := by
  induction d with
  | nil => rfl
  | cons a as ih =>
    rw [List.map_cons]
    by_cases h : (a.1 == k) = true
    · have ha : a.1 = k := beq_iff_eq.1 h
      have hk : ((k, v).1 == k') = false :=
        beq_eq_false_iff_ne.2 (fun hh => hne hh.symm)
      have ha' : (a.1 == k') = false :=
        beq_eq_false_iff_ne.2 (fun hh => hne (ha ▸ hh).symm)
      rw [if_pos h, dictFind_cons_neg _ _ _ (by simp [hk]),
        dictFind_cons_neg a as k' (by simp [ha']), ih]
    · rw [if_neg h]
      by_cases h2 : (a.1 == k') = true
      · rw [dictFind_cons_pos _ _ _ h2, dictFind_cons_pos a as k' h2]
      · rw [dictFind_cons_neg _ _ _ h2, dictFind_cons_neg a as k' h2, ih]

theorem dictFind_dictSet_self (d : Dict) (k v : String) :
    dictFind (dictSet d k v) k = some v := by
  unfold dictSet
  by_cases h : (dictFind d k).isSome = true
  · rw [if_pos h, dictFind_mapSet_self, if_pos h]
  · rw [if_neg h]
    unfold dictFind at h ⊢
    rw [find?_append]
    cases hf : List.find? (fun p => p.1 == k) d with
    | some p => rw [hf] at h ; simp at h
    | none => simp [List.find?_cons]

theorem dictFind_dictSet_ne (d : Dict) (k v k' : String) (hne : ¬ k' = k) :
    dictFind (dictSet d k v) k' = dictFind d k' := by
  unfold dictSet
  by_cases h : (dictFind d k).isSome = true
  · rw [if_pos h]
    exact dictFind_mapSet_ne d k v k' hne
  · rw [if_neg h]
    have hk : ((k, v).1 == k') = false :=
      beq_eq_false_iff_ne.2 (fun hh => hne hh.symm)
    unfold dictFind
    rw [find?_append]
    cases hf : List.find? (fun p => p.1 == k') d with
    | some p => simp
    | none => simp [List.find?_cons, hk]

/-- C10: whenever a taker-identifier column, a maker-identifier column and a
buy/sell side column all resolve, the Mapping Resolver's relational pass
sets buyer to the taker column and seller to the maker column exactly when
some sample of the side column contains `"buy"` (case-insensitively), and
the reverse otherwise — overwriting whatever buyer/seller suggestion the
earlier passes left in the suggestion map (the statement holds for every
starting suggestion map). -/
theorem c10_relational_pass (sugg : Dict) (df : Dataset)
    (takerCol makerCol sideCol : String)
    (ht : findColumnContaining (amColumns df) ["taker_user", "taker_id"] =
      some takerCol)
    (hm : findColumnContaining (amColumns df) ["maker_user", "maker_id"] =
      some makerCol)
    (hs : findColumnContaining (amColumns df) ["ordertype", "side", "buy_sell"] =
      some sideCol) :
    dictFind (applyLogicalRelationships sugg (amColumns df) (amSamples df))
        "buyer_lei" =
      some (if (samplesGet (amSamples df) sideCol).any
          (fun s => strContains (pyLower s) "buy") then takerCol else makerCol) ∧
    dictFind (applyLogicalRelationships sugg (amColumns df) (amSamples df))
        "seller_lei" =
      some (if (samplesGet (amSamples df) sideCol).any
          (fun s => strContains (pyLower s) "buy") then makerCol else takerCol) := by
  have key : applyLogicalRelationships sugg (amColumns df) (amSamples df) =
      if (samplesGet (amSamples df) sideCol).any
          (fun s => strContains (pyLower s) "buy") then
        dictSet (dictSet (copyTradeDatetime sugg) "buyer_lei" takerCol)
          "seller_lei" makerCol
      else
        dictSet (dictSet (copyTradeDatetime sugg) "buyer_lei" makerCol)
          "seller_lei" takerCol := by
    unfold applyLogicalRelationships
    rw [ht, hm, hs]
  rw [key]
  by_cases hb : (samplesGet (amSamples df) sideCol).any
      (fun s => strContains (pyLower s) "buy") = true
  · rw [if_pos hb, if_pos hb, if_pos hb]
    exact ⟨by rw [dictFind_dictSet_ne _ _ _ _ (by decide), dictFind_dictSet_self],
      dictFind_dictSet_self _ _ _⟩
  · rw [if_neg hb, if_neg hb, if_neg hb]
    exact ⟨by rw [dictFind_dictSet_ne _ _ _ _ (by decide), dictFind_dictSet_self],
      dictFind_dictSet_self _ _ _⟩

/-- The counterparty-inference scenario dataset of the spec: taker and maker
identifier columns plus a side column whose sample reads `"buy"`. -/
def c10Df : Dataset :=
  { cols := ["taker_user", "maker_user", "side"],
    rows := [[("taker_user", some "549300XYZABCDEFG5678"),
              ("maker_user", some "213800ABCDEFGHIJ1234"),
              ("side", some "buy")]] }

/-- Witness for C10 on the spec's counterparty-inference scenario, starting
from a suggestion map that already binds buyer and seller (which the pass
overwrites). -/
theorem c10_relational_pass_witness :
    dictFind (applyLogicalRelationships
        [("buyer_lei", "other"), ("seller_lei", "other2")]
        (amColumns c10Df) (amSamples c10Df)) "buyer_lei" =
      some (if (samplesGet (amSamples c10Df) "side").any
          (fun s => strContains (pyLower s) "buy") then "taker_user"
        else "maker_user") ∧
    dictFind (applyLogicalRelationships
        [("buyer_lei", "other"), ("seller_lei", "other2")]
        (amColumns c10Df) (amSamples c10Df)) "seller_lei" =
      some (if (samplesGet (amSamples c10Df) "side").any
          (fun s => strContains (pyLower s) "buy") then "maker_user"
        else "taker_user") :=
  c10_relational_pass [("buyer_lei", "other"), ("seller_lei", "other2")]
    c10Df "taker_user" "maker_user" "side" (by decide) (by decide) (by decide)

/-- Witness for C1 on a one-row dataset. -/
theorem c1_row_count_invariant_witness :
    txElements (generateXml env0 [[("a", some "1")]] [] [] none) =
      [[("a", some "1")]].map (fun r => addMifirTransaction env0 r [] [] none) ∧
    (txElements (generateXml env0 [[("a", some "1")]] [] [] none)).length =
      ([[("a", some "1")]] : List Row).length ∧
    ∀ t ∈ txElements (generateXml env0 [[("a", some "1")]] [] [] none),
      t.name = "Tx" :=
  c1_row_count_invariant env0 [[("a", some "1")]] [] [] none

/-- Witness for C2 on the empty row and mapping (where both identifiers fall
back to the placeholder sentinels and the person branch is taken). -/
theorem c2_lei_shape_branch_witness :
    ¬ resolveBuyerId [] [] [] = "" ∧
    ¬ resolveSellerId [] [] [] = "" ∧
    (buyerIdElem env0 [] [] []).map Xml.childNames =
      some (if specLeiShaped (resolveBuyerId [] [] []) = true
        then ["LEI"] else ["Prsn"]) ∧
    (specLeiShaped (resolveBuyerId [] [] []) = true →
      buyerIdElem env0 [] [] [] =
        some (Xml.elem "Id" [] ""
          [Xml.elem "LEI" [] (resolveBuyerId [] [] []) []])) ∧
    (specLeiShaped (resolveBuyerId [] [] []) = false →
      buyerIdElem env0 [] [] [] =
        some (Xml.elem "Id" [] "" [buyerPrsn env0 [] [] []]) ∧
      "Nm" ∈ (buyerPrsn env0 [] [] []).childNames ∧
      "Othr" ∈ (buyerPrsn env0 [] [] []).childNames ∧
      (buyerPrsn env0 [] [] []).name = "Prsn") ∧
    (sellerIdElem env0 [] [] []).map Xml.childNames =
      some (if specLeiShaped (resolveSellerId [] [] []) = true
        then ["LEI"] else ["Prsn"]) ∧
    (specLeiShaped (resolveSellerId [] [] []) = true →
      sellerIdElem env0 [] [] [] =
        some (Xml.elem "Id" [] ""
          [Xml.elem "LEI" [] (resolveSellerId [] [] []) []])) ∧
    (specLeiShaped (resolveSellerId [] [] []) = false →
      sellerIdElem env0 [] [] [] =
        some (Xml.elem "Id" [] "" [sellerPrsn env0 [] [] []]) ∧
      "Nm" ∈ (sellerPrsn env0 [] [] []).childNames ∧
      "Othr" ∈ (sellerPrsn env0 [] [] []).childNames ∧
      (sellerPrsn env0 [] [] []).name = "Prsn") :=
  c2_lei_shape_branch env0 [] [] []

/-- Witness for C5 (amended) on the empty registry, the standard-name
colliding field and a fresh identifier. -/
theorem c5_add_and_validation_witness :
    ((addCustomField ⟨[]⟩ stdCollisionField).2 = true ↔
      ∀ g ∈ (⟨[]⟩ : CustomFieldManager).customFields,
        ¬ g.name = stdCollisionField.name) ∧
    ((addCustomField ⟨[]⟩ stdCollisionField).2 = true →
      (addCustomField ⟨[]⟩ stdCollisionField).1.customFields =
        (⟨[]⟩ : CustomFieldManager).customFields ++ [stdCollisionField]) ∧
    ((addCustomField ⟨[]⟩ stdCollisionField).2 = false →
      (addCustomField ⟨[]⟩ stdCollisionField).1 = ⟨[]⟩) ∧
    ((validateFieldName ⟨[]⟩ "my_field").1 = true ↔
      (¬ "my_field" = "" ∧ pyIsAlnumStr (stripIdentChars "my_field") = true ∧
       (∀ g ∈ (⟨[]⟩ : CustomFieldManager).customFields, ¬ g.name = "my_field") ∧
       ¬ "my_field" ∈ MIFIR_FIELD_NAMES)) ∧
    ((validateXmlElementName "my_field").1 = true ↔
      ((∃ c cs, "my_field".data = c :: cs ∧ pyIsAlphaChar c = true) ∧
       pyIsAlnumStr (stripIdentChars "my_field") = true)) :=
  c5_add_and_validation ⟨[]⟩ stdCollisionField "my_field"

/-- Witness for C8 (amended) on the required `client_ref` field mapped to an
absent column. -/
theorem c8_required_empty_emitted_witness :
    (addSingleCustomField clientRefField [] [("client_ref", "colA")] [] = none ↔
      (resolveCustomValue clientRefField [] [("client_ref", "colA")] [] = "" ∧
       clientRefField.is_required = false)) ∧
    (resolveCustomValue clientRefField [] [("client_ref", "colA")] [] = "" →
      clientRefField.is_required = true →
      addSingleCustomField clientRefField [] [("client_ref", "colA")] [] =
        some (Xml.elem clientRefField.xml_element_name
          [("data-category", clientRefField.category.value)]
          clientRefField.default_value [])) :=
  c8_required_empty_emitted clientRefField [] [("client_ref", "colA")] []

/-- Witness for C9 (amended) on the optional-before-required registry. -/
theorem c9_insertion_order_witness :
    addCustomFieldsElems env0 [] c9Map c9Consts (getAllCustomFields c9Mgr) =
      c9Mgr.customFields.filterMap (emitCustomField env0 [] c9Map c9Consts) ∧
    (∀ x ∈ addCustomFieldsElems env0 [] c9Map c9Consts
        (getAllCustomFields c9Mgr), x.children = []) ∧
    ((addMifirTransaction env0 [] c9Map c9Consts (some c9Mgr)).childNamed
        "New").map (fun n => n.children.drop 11) =
      some (addCustomFieldsElems env0 [] c9Map c9Consts
        (getAllCustomFields c9Mgr)) :=
  c9_insertion_order env0 [] c9Map c9Consts c9Mgr
